import Mathlib

/-!
Verification of `scripts/batch_assembly.py` (GetOrganelle batch driver).

The script is embedded shallowly:
* the filesystem is a list of paths that exist;
* a manifest is the list of its text lines;
* the external assembly process is an oracle (`ProcOutcome` per sample);
* console output is modelled as lists of emitted strings;
* the report file is modelled as its list of lines, and persisting it as an
  operation on a path-to-content store.
-/

namespace BatchAssembly

/-- Whitespace test used by Python's `str.strip`
    (restricted to the whitespace characters relevant here). -/
def isSpaceChar (c : Char) : Bool :=
  c = ' ' || c = '\t' || c = '\n' || c = '\r'

/-- Remove leading and trailing whitespace from a character list. -/
def trimChars (l : List Char) : List Char :=
  ((l.dropWhile isSpaceChar).reverse.dropWhile isSpaceChar).reverse

/-- Python `str.strip()`. -/
def pyStrip (s : String) : String :=
  String.mk (trimChars s.toList)

/-- Split a character list at commas (auxiliary). -/
def splitCommaAux : List Char → List Char → List String
  | [], acc => [String.mk acc.reverse]
  | c :: cs, acc =>
    if c = ',' then String.mk acc.reverse :: splitCommaAux cs []
    else splitCommaAux cs (c :: acc)

/-- Comma-splitting of one manifest line, as `csv.reader` does on the
    plain (unquoted) lines this script consumes. -/
def splitComma (s : String) : List String :=
  splitCommaAux s.toList []

/-- `SampleRecord`: one validated manifest entry, the tuple
    `(sample_name, read1, read2)` appended by `read_samples`. -/
structure SampleRecord where
  name : String
  read1 : String
  read2 : String
  deriving Repr, DecidableEq

/-- `RunResult`: the dict `{'sample_name': ..., 'success': ...}` the main
    loop appends to `results`. -/
structure RunResult where
  sample_name : String
  success : Bool
  deriving Repr, DecidableEq

/-- One iteration of the `read_samples` loop body on the line with number
    `lineNum`: returns the accepted record (if any) and the warnings printed. -/
def checkLine (fs : List String) (lineNum : Nat) (line : String) :
    Option SampleRecord × List String :=
  let row := splitComma line
  if row.length ≠ 3 then
    (none, ["Warning: Skipping line " ++ toString lineNum ++
            " - expected 3 columns, got " ++ toString row.length])
  else
    let sample_name := pyStrip (row.getD 0 "")
    let read1 := pyStrip (row.getD 1 "")
    let read2 := pyStrip (row.getD 2 "")
    if ¬ fs.contains read1 then
      (none, ["Warning: Read1 file not found for " ++ sample_name ++ ": " ++ read1])
    else if ¬ fs.contains read2 then
      (none, ["Warning: Read2 file not found for " ++ sample_name ++ ": " ++ read2])
    else
      (some ⟨sample_name, read1, read2⟩, [])

/-- The `read_samples` loop over the remaining lines, starting at line
    number `lineNum`: accepted records and all warnings, in order. -/
def read_samples_aux (fs : List String) (lineNum : Nat) :
    List String → List SampleRecord × List String
  | [] => ([], [])
  | l :: rest =>
    let hd := checkLine fs lineNum l
    let tl := read_samples_aux fs (lineNum + 1) rest
    (match hd.1 with
     | some r => r :: tl.1
     | none => tl.1,
     hd.2 ++ tl.2)

/-- `read_samples(sample_file)`: the list of accepted `(name, read1, read2)`
    records, for a manifest that opened successfully (`fs` is the set of
    existing paths, `lines` the manifest's lines; `enumerate(reader, 1)`
    numbers lines from 1). -/
def read_samples (fs : List String) (lines : List String) : List SampleRecord :=
  (read_samples_aux fs 1 lines).1

/-- The warnings `read_samples` prints, in order. -/
def read_samples_warnings (fs : List String) (lines : List String) : List String :=
  (read_samples_aux fs 1 lines).2

/-- The record `read_samples` builds from one well-formed line. -/
def recordOfLine (line : String) : SampleRecord :=
  let row := splitComma line
  ⟨pyStrip (row.getD 0 ""), pyStrip (row.getD 1 ""), pyStrip (row.getD 2 "")⟩

-- sanity checks (scratch)
example : splitComma "s,a,b" = ["s", "a", "b"] := by decide
example : pyStrip " s1 " = "s1" := by decide
example : read_samples ["a", "b"] ["s,a,b"] = [⟨"s", "a", "b"⟩] := by decide
example : read_samples_warnings [] ["s,a,b"] =
    ["Warning: Read1 file not found for s: a"] := by decide
example : read_samples_warnings [] ["s,a"] =
    ["Warning: Skipping line 1 - expected 3 columns, got 2"] := by decide

/-! ## Sample runner -/

/-- Outcome of one `subprocess.run` call on the external assembly tool:
    normal termination with an exit code and captured streams, a launch
    failure (for instance the executable is missing), or any other fault
    raised during the invocation.  With `check=True`, a non-zero exit code
    surfaces as `CalledProcessError` carrying the captured streams. -/
inductive ProcOutcome where
  | exited (code : Nat) (stdout : String) (stderr : String)
  | launchFailure (msg : String)
  | otherFault (msg : String)
  deriving Repr, DecidableEq

/-- `run_getorganelle(sample_name, ...)` outcome classification: the boolean
    it returns and the messages it prints after the invocation.  Every
    exception raised by `subprocess.run` is caught inside the function
    (`CalledProcessError` first, then bare `Exception`), so the model is a
    total function: no exception propagates to the caller. -/
def run_getorganelle (o : ProcOutcome) (sample_name : String) :
    Bool × List String :=
  match o with
  | .exited code _ stderr =>
    if code = 0 then
      (true, ["[SUCCESS] " ++ sample_name ++ " completed successfully"])
    else
      (false, ["[FAILED] " ++ sample_name ++ " failed with error:", stderr])
  | .launchFailure msg =>
    (false, ["[ERROR] Unexpected error for " ++ sample_name ++ ":", msg])
  | .otherFault msg =>
    (false, ["[ERROR] Unexpected error for " ++ sample_name ++ ":", msg])

/-! ## Batch controller -/

/-- The per-sample loop of `main`: runs the samples in order, appending a
    `RunResult` for each attempted sample, and breaks right after the first
    failure when `continue_on_error` is unset.  Returns the accumulated
    `results` list and the list of samples actually attempted (those for
    which `run_getorganelle` was invoked), in order.  `runner s` is the
    boolean `run_getorganelle` returns for sample `s`. -/
def batchLoop (continue_on_error : Bool) (runner : SampleRecord → Bool) :
    List SampleRecord → List RunResult × List SampleRecord
  | [] => ([], [])
  | s :: rest =>
    let ok := runner s
    if ok || continue_on_error then
      let tl := batchLoop continue_on_error runner rest
      (⟨s.name, ok⟩ :: tl.1, s :: tl.2)
    else
      ([⟨s.name, ok⟩], [s])

/-- `successful = sum(1 for r in results if r['success'])`. -/
def count_successful (results : List RunResult) : Nat :=
  (results.filter (fun r => r.success)).length

/-- `failed = total - successful`. -/
def count_failed (results : List RunResult) : Nat :=
  results.length - count_successful results

/-- `sys.exit(0 if failed == 0 else 1)`. -/
def exit_code (results : List RunResult) : Nat :=
  if count_failed results = 0 then 0 else 1

/-! ## Report generator -/

/-- A run of `n` copies of character `c` (the `"=" * 60` / `"-" * 60`
    separators and the padding spaces). -/
def charRun (c : Char) (n : Nat) : String :=
  String.mk (List.replicate n c)

/-- Python's `f"{s:<30}"`: left-align `s`, padding with spaces on the right
    up to a minimum width. -/
def padToWidth (s : String) (w : Nat) : String :=
  s ++ charRun ' ' (w - s.length)

/-- Modelled from the spec: a "left-padded name (fixed minimum width)" —
    padding spaces added on the left of the name up to the minimum width.
    Stated only to compare with the source's formatting, which left-aligns
    (pads on the right). -/
def padLeftSpec (s : String) (w : Nat) : String :=
  charRun ' ' (w - s.length) ++ s

/-- The per-sample detail line `f"{result['sample_name']:<30} {status}"`. -/
def sampleLine (r : RunResult) : String :=
  padToWidth r.sample_name 30 ++ " " ++ (if r.success then "SUCCESS" else "FAILED")

/-- The lines `generate_summary` writes to the report file, in order
    (`now` is the generation timestamp string). -/
def generate_summary_lines (now : String) (results : List RunResult) :
    List String :=
  ["GetOrganelle Batch Assembly Summary",
   charRun '=' 60,
   "Generated: " ++ now,
   "",
   "Total samples: " ++ toString results.length,
   "Successful: " ++ toString (count_successful results),
   "Failed: " ++ toString (count_failed results),
   "",
   "Sample Details:",
   charRun '-' 60] ++ results.map sampleLine

/-- `summary_file = os.path.join(output_dir, 'batch_assembly_summary.txt')`. -/
def summary_path (output_dir : String) : String :=
  output_dir ++ "/batch_assembly_summary.txt"

/-- A store mapping file paths to contents (a model of the files the
    script writes). -/
def FileStore := List (String × List String)

/-- Content of `path` in the store, if present. -/
def readStore (store : FileStore) (path : String) : Option (List String) :=
  match store with
  | [] => none
  | (p, c) :: rest => if p = path then some c else readStore rest path

/-- `open(path, 'w')` followed by writes: replaces whatever content `path`
    had before. -/
def writeStore (store : FileStore) (path : String) (content : List String) :
    FileStore :=
  (path, content) :: store

/-- `generate_summary(results, output_dir)` acting on the file store. -/
def generate_summary (store : FileStore) (now output_dir : String)
    (results : List RunResult) : FileStore :=
  writeStore store (summary_path output_dir) (generate_summary_lines now results)

/-! ## Main driver -/

/-- Observable outcome of `main` once the manifest file opened: either the
    fatal early exit when no valid samples were found (before any report is
    generated), or a finished run carrying the exit code, the accumulated
    results, the attempted samples, and the report path and lines. -/
inductive MainOutcome where
  | earlyExit (code : Nat) (msg : String)
  | finished (code : Nat) (results : List RunResult)
      (attempted : List SampleRecord) (reportPath : String)
      (reportLines : List String)
  deriving Repr, DecidableEq

/-- `main()` after argument parsing and directory creation: reads the
    samples, exits fatally when none are valid (writing nothing), otherwise
    runs the batch loop and generates the summary into the file store.
    `fs` is the set of existing paths, `manifest` the lines of the sample
    file, `runner` the boolean `run_getorganelle` returns per sample. -/
def main_run (store : FileStore) (fs manifest : List String)
    (continue_on_error : Bool) (output_dir now : String)
    (runner : SampleRecord → Bool) : MainOutcome × FileStore :=
  let samples := read_samples fs manifest
  if samples.isEmpty then
    (.earlyExit 1 "Error: No valid samples found in the input file", store)
  else
    let loop := batchLoop continue_on_error runner samples
    (.finished (exit_code loop.1) loop.1 loop.2 (summary_path output_dir)
      (generate_summary_lines now loop.1),
     generate_summary store now output_dir loop.1)

-- sanity checks (scratch)
example : run_getorganelle (.exited 0 "out" "err") "s1" =
    (true, ["[SUCCESS] s1 completed successfully"]) := by decide
example : run_getorganelle (.exited 2 "out" "boom") "s1" =
    (false, ["[FAILED] s1 failed with error:", "boom"]) := by decide
example :
    batchLoop false (fun s => s.name = "s1") [⟨"s1", "a", "b"⟩, ⟨"s2", "c", "d"⟩] =
    ([⟨"s1", true⟩, ⟨"s2", false⟩], [⟨"s1", "a", "b"⟩, ⟨"s2", "c", "d"⟩]) := by decide
example :
    batchLoop false (fun s => s.name = "s2") [⟨"s1", "a", "b"⟩, ⟨"s2", "c", "d"⟩] =
    ([⟨"s1", false⟩], [⟨"s1", "a", "b"⟩]) := by decide
example : sampleLine ⟨"s1", true⟩ =
    "s1                             SUCCESS" := by decide
example : (main_run [] [] ["s,a,b"] false "out" "t" (fun _ => true)).1 =
    .earlyExit 1 "Error: No valid samples found in the input file" := by decide

/-- The loop-body acceptance test, independent of the line number (which
    only affects the text of the malformed-line warning). -/
def accept (fs : List String) (line : String) : Option SampleRecord :=
  (checkLine fs 1 line).1

/-! ## Helper lemmas -/

theorem checkLine_fst_eq_accept (fs : List String) (n : Nat) (line : String) :
    (checkLine fs n line).1 = accept fs line := by
  unfold accept checkLine
  by_cases h3 : (splitComma line).length = 3 <;> simp [h3]

theorem read_samples_aux_fst (fs : List String) (lines : List String) :
    ∀ n : Nat, (read_samples_aux fs n lines).1 = lines.filterMap (accept fs) := by
  induction lines with
  | nil => intro n; rfl
  | cons l rest ih =>
    intro n
    show (match (checkLine fs n l).1 with
          | some r => r :: (read_samples_aux fs (n + 1) rest).1
          | none => (read_samples_aux fs (n + 1) rest).1) =
        (l :: rest).filterMap (accept fs)
    rw [checkLine_fst_eq_accept, List.filterMap_cons]
    cases hacc : accept fs l with
    | none => exact ih (n + 1)
    | some r => rw [ih (n + 1)]

theorem read_samples_eq_filterMap (fs lines : List String) :
    read_samples fs lines = lines.filterMap (accept fs) :=
  read_samples_aux_fst fs lines 1

theorem read_samples_aux_snd_append (fs : List String) (pre : List String) :
    ∀ (post : List String) (n : Nat),
      (read_samples_aux fs n (pre ++ post)).2 =
        (read_samples_aux fs n pre).2 ++
          (read_samples_aux fs (n + pre.length) post).2 := by
  induction pre with
  | nil => intro post n; simp [read_samples_aux]
  | cons l rest ih =>
    intro post n
    show (checkLine fs n l).2 ++ (read_samples_aux fs (n + 1) (rest ++ post)).2 =
        ((checkLine fs n l).2 ++ (read_samples_aux fs (n + 1) rest).2) ++
          (read_samples_aux fs (n + (l :: rest).length) post).2
    rw [ih post (n + 1), List.append_assoc]
    have harith : n + 1 + rest.length = n + (l :: rest).length := by
      simp [List.length_cons]; omega
    rw [harith]

theorem checkLine_malformed (fs : List String) (n : Nat) (line : String)
    (h : (splitComma line).length ≠ 3) :
    checkLine fs n line =
      (none, ["Warning: Skipping line " ++ toString n ++
              " - expected 3 columns, got " ++
              toString (splitComma line).length]) := by
  unfold checkLine
  simp [h]

theorem accept_malformed (fs : List String) (line : String)
    (h : (splitComma line).length ≠ 3) : accept fs line = none := by
  unfold accept
  rw [checkLine_malformed fs 1 line h]

theorem accept_of_wellformed (fs : List String) (line : String)
    (h3 : (splitComma line).length = 3)
    (h1 : fs.contains (pyStrip ((splitComma line).getD 1 "")) = true)
    (h2 : fs.contains (pyStrip ((splitComma line).getD 2 "")) = true) :
    accept fs line = some (recordOfLine line) := by
  unfold accept checkLine recordOfLine
  dsimp only
  rw [if_neg (by simp [h3]), if_neg (by simpa using h1), if_neg (by simpa using h2)]

theorem accept_eq_some (fs : List String) (line : String) (r : SampleRecord)
    (h : accept fs line = some r) :
    (splitComma line).length = 3 ∧ r = recordOfLine line ∧
      fs.contains r.read1 = true ∧ fs.contains r.read2 = true := by
  unfold accept checkLine at h
  dsimp only at h
  by_cases h3 : (splitComma line).length = 3
  · rw [if_neg (by simp [h3])] at h
    by_cases h1 : fs.contains (pyStrip ((splitComma line).getD 1 "")) = true
    · rw [if_neg (by simpa using h1)] at h
      by_cases h2 : fs.contains (pyStrip ((splitComma line).getD 2 "")) = true
      · rw [if_neg (by simpa using h2)] at h
        have hsome : some (recordOfLine line) = some r := by
          rw [← h]; rfl
        injection hsome with hr
        subst hr
        exact ⟨h3, rfl, h1, h2⟩
      · rw [if_pos (by simpa using h2)] at h
        simp at h
    · rw [if_pos (by simpa using h1)] at h
      simp at h
  · rw [if_pos (by simp [h3])] at h
    simp at h

/-! ## Theorems -/

/-- C2: for every accumulated result sequence, the report counts satisfy
    `total = successful + failed`; the exit code is `0` iff `failed = 0`,
    equivalently `0` exactly when every accumulated result succeeded and
    `1` exactly when at least one failed. -/
theorem report_counts_and_exit_code (results : List RunResult) :
    results.length = count_successful results + count_failed results
    ∧ (exit_code results = 0 ↔ count_failed results = 0)
    ∧ (count_failed results = 0 ↔ ∀ r ∈ results, r.success = true)
    ∧ (exit_code results = 1 ↔ ∃ r ∈ results, r.success = false) := by
  have hle : count_successful results ≤ results.length :=
    List.length_filter_le _ _
  have h3 : count_failed results = 0 ↔ ∀ r ∈ results, r.success = true := by
    unfold count_failed count_successful at *
    constructor
    · intro h
      have hlen : (results.filter (fun r => r.success)).length = results.length := by
        omega
      simpa using List.filter_length_eq_length.mp hlen
    · intro h
      have hlen : (results.filter (fun r => r.success)).length = results.length :=
        List.filter_length_eq_length.mpr (by simpa using h)
      omega
  refine ⟨by unfold count_failed; omega, ?_, h3, ?_⟩
  · unfold exit_code
    by_cases hf : count_failed results = 0 <;> simp [hf]
  have h4 : exit_code results = 1 ↔ ¬ count_failed results = 0 := by
    unfold exit_code
    by_cases hf : count_failed results = 0 <;> simp [hf]
  rw [h4, h3]
  push_neg
  simp [Bool.not_eq_true]

/-- Witness for C2 at a concrete two-sample result list. -/
theorem report_counts_and_exit_code_witness :
    exit_code [⟨"s1", true⟩, ⟨"s2", false⟩] = 1 :=
  (report_counts_and_exit_code [⟨"s1", true⟩, ⟨"s2", false⟩]).2.2.2.mpr
    ⟨⟨"s2", false⟩, by decide, rfl⟩

/-- C7: `run_getorganelle` returns `true` exactly when the external process
    exits with status 0; on a non-zero exit it returns `false` and emits the
    captured error stream verbatim after the failure notice; on a launch
    failure or any other fault it returns `false` and emits the fault
    description.  It is a total function, so no exception propagates to the
    batch controller. -/
theorem run_one_outcome_classification (o : ProcOutcome) (sample_name : String) :
    ((run_getorganelle o sample_name).1 = true ↔
      ∃ out err, o = ProcOutcome.exited 0 out err)
    ∧ (∀ code out err, o = ProcOutcome.exited code out err → code ≠ 0 →
        run_getorganelle o sample_name =
          (false, ["[FAILED] " ++ sample_name ++ " failed with error:", err]))
    ∧ (∀ msg, (o = ProcOutcome.launchFailure msg ∨ o = ProcOutcome.otherFault msg) →
        run_getorganelle o sample_name =
          (false, ["[ERROR] Unexpected error for " ++ sample_name ++ ":", msg])) := by
  refine ⟨?_, ?_, ?_⟩
  · cases o with
    | exited code out err =>
      by_cases h : code = 0
      · subst h
        simp only [run_getorganelle, if_pos rfl]
        exact ⟨fun _ => ⟨out, err, rfl⟩, fun _ => rfl⟩
      · simp [run_getorganelle, h]
    | launchFailure msg => simp [run_getorganelle]
    | otherFault msg => simp [run_getorganelle]
  · intro code out err ho hne
    subst ho
    simp [run_getorganelle, hne]
  · intro msg hmsg
    rcases hmsg with h | h <;> subst h <;> simp [run_getorganelle]

/-- Witness for C7 at a concrete non-zero exit. -/
theorem run_one_outcome_classification_witness :
    run_getorganelle (ProcOutcome.exited 2 "out" "boom") "s1" =
      (false, ["[FAILED] s1 failed with error:", "boom"]) :=
  (run_one_outcome_classification (ProcOutcome.exited 2 "out" "boom") "s1").2.1
    2 "out" "boom" rfl (by decide)

/-- C5: whenever `read_samples` returns no valid sample, `main` exits
    fatally with status 1 and the no-valid-samples message, and the file
    store is left untouched: no report is generated. -/
theorem no_valid_samples_fatal (store : FileStore) (fs manifest : List String)
    (continue_on_error : Bool) (output_dir now : String)
    (runner : SampleRecord → Bool)
    (h : read_samples fs manifest = []) :
    main_run store fs manifest continue_on_error output_dir now runner =
      (.earlyExit 1 "Error: No valid samples found in the input file", store) := by
  simp [main_run, h]

/-- Witness for C5: a manifest whose only line is malformed. -/
theorem no_valid_samples_fatal_witness :
    main_run [] [] ["s,a"] false "output" "t" (fun _ => true) =
      (.earlyExit 1 "Error: No valid samples found in the input file", []) :=
  no_valid_samples_fatal [] [] ["s,a"] false "output" "t" (fun _ => true)
    (by decide)

/-- Auxiliary for C3: on lines that are well-formed and whose read files
    exist, filtering coincides with mapping `recordOfLine`. -/
theorem filterMap_accept_of_wellformed (fs : List String) :
    ∀ lines : List String,
      (∀ l ∈ lines, (splitComma l).length = 3 ∧
        fs.contains (pyStrip ((splitComma l).getD 1 "")) = true ∧
        fs.contains (pyStrip ((splitComma l).getD 2 "")) = true) →
      lines.filterMap (accept fs) = lines.map recordOfLine
  | [], _ => rfl
  | l :: rest, h => by
    rcases h l (List.mem_cons_self l rest) with ⟨h3, h1, h2⟩
    rw [List.filterMap_cons, accept_of_wellformed fs l h3 h1 h2,
      filterMap_accept_of_wellformed fs rest
        (fun x hx => h x (List.mem_cons_of_mem l hx)),
      List.map_cons]

/-- C3: for every manifest whose lines all have exactly 3 comma-separated
    fields and whose read1 and read2 paths all exist, `read_samples` returns
    exactly one record per line, built from that line, in input order. -/
theorem wellformed_manifest_reads_all (fs lines : List String)
    (h : ∀ l ∈ lines, (splitComma l).length = 3 ∧
      fs.contains (pyStrip ((splitComma l).getD 1 "")) = true ∧
      fs.contains (pyStrip ((splitComma l).getD 2 "")) = true) :
    read_samples fs lines = lines.map recordOfLine
    ∧ (read_samples fs lines).length = lines.length := by
  have hmain : read_samples fs lines = lines.map recordOfLine := by
    rw [read_samples_eq_filterMap]
    exact filterMap_accept_of_wellformed fs lines h
  exact ⟨hmain, by rw [hmain, List.length_map]⟩

/-- Witness for C3 on a concrete two-line manifest with whitespace. -/
theorem wellformed_manifest_reads_all_witness :
    read_samples ["a.fq", "b.fq"] ["s1, a.fq ,b.fq", "s2,a.fq,b.fq"] =
      [⟨"s1", "a.fq", "b.fq"⟩, ⟨"s2", "a.fq", "b.fq"⟩]
    ∧ (read_samples ["a.fq", "b.fq"] ["s1, a.fq ,b.fq", "s2,a.fq,b.fq"]).length = 2 := by
  have := wellformed_manifest_reads_all ["a.fq", "b.fq"]
    ["s1, a.fq ,b.fq", "s2,a.fq,b.fq"] (by decide)
  exact ⟨by rw [this.1]; decide, this.2⟩

/-- C6: a manifest line whose comma-split field count is not 3 is warned
    about (with its 1-based line number and field count) and skipped: the
    returned records are those of the same manifest without that line, and
    replacing the bad line by a well-formed line with existing files yields
    exactly one more record. -/
theorem malformed_line_skipped (fs pre post : List String) (bad good : String)
    (hbad : (splitComma bad).length ≠ 3)
    (hgood : (splitComma good).length = 3 ∧
      fs.contains (pyStrip ((splitComma good).getD 1 "")) = true ∧
      fs.contains (pyStrip ((splitComma good).getD 2 "")) = true) :
    read_samples fs (pre ++ bad :: post) = read_samples fs (pre ++ post)
    ∧ ("Warning: Skipping line " ++ toString (pre.length + 1) ++
        " - expected 3 columns, got " ++ toString (splitComma bad).length)
        ∈ read_samples_warnings fs (pre ++ bad :: post)
    ∧ (read_samples fs (pre ++ good :: post)).length =
        (read_samples fs (pre ++ bad :: post)).length + 1 := by
  have hnone : accept fs bad = none := accept_malformed fs bad hbad
  have hsome : accept fs good = some (recordOfLine good) :=
    accept_of_wellformed fs good hgood.1 hgood.2.1 hgood.2.2
  refine ⟨?_, ?_, ?_⟩
  · rw [read_samples_eq_filterMap, read_samples_eq_filterMap,
      List.filterMap_append, List.filterMap_append, List.filterMap_cons, hnone]
  · unfold read_samples_warnings
    rw [read_samples_aux_snd_append fs pre (bad :: post) 1]
    refine List.mem_append_right _ ?_
    show _ ∈ ((checkLine fs (1 + pre.length) bad).2 ++
      (read_samples_aux fs (1 + pre.length + 1) post).2)
    rw [checkLine_malformed fs (1 + pre.length) bad hbad]
    have : pre.length + 1 = 1 + pre.length := Nat.add_comm _ _
    rw [this]
    exact List.mem_append_left _ (List.mem_singleton_self _)
  · rw [read_samples_eq_filterMap, read_samples_eq_filterMap,
      List.filterMap_append, List.filterMap_append, List.filterMap_cons,
      List.filterMap_cons, hnone, hsome]
    simp [List.length_append]
    omega

/-- Witness for C6: the 2-field line `s,a` is skipped; replacing it by
    `s2,a,b` adds one record. -/
theorem malformed_line_skipped_witness :
    read_samples ["a", "b"] ["s1,a,b", "s,a"] = read_samples ["a", "b"] ["s1,a,b"]
    ∧ ("Warning: Skipping line " ++ toString (1 + 1) ++
        " - expected 3 columns, got " ++ toString (splitComma "s,a").length)
        ∈ read_samples_warnings ["a", "b"] ["s1,a,b", "s,a"]
    ∧ (read_samples ["a", "b"] ["s1,a,b", "s2,a,b"]).length =
        (read_samples ["a", "b"] ["s1,a,b", "s,a"]).length + 1 := by
  have := malformed_line_skipped ["a", "b"] ["s1,a,b"] [] "s,a" "s2,a,b"
    (by decide) (by decide)
  exact this

/-- C4 counterexample: on the line `s,a,b` with neither file existing,
    `read_samples` emits exactly one warning (for read1) — not the two
    independent warnings the claim asserts — and excludes the record. -/
theorem independent_checks_counterexample :
    read_samples_warnings [] ["s,a,b"] =
      ["Warning: Read1 file not found for s: a"]
    ∧ (read_samples_warnings [] ["s,a,b"]).length ≠ 2
    ∧ read_samples [] ["s,a,b"] = [] := by decide

/-- C4 amended: for a well-formed line, `read_samples` checks read1 first:
    a missing read1 yields exactly one warning naming the sample and the
    read1 path and the record is skipped with read2 never consulted; when
    read1 exists and read2 is missing, exactly one warning names the sample
    and the read2 path; in either case the record is excluded from the
    returned sequence. -/
theorem missing_read_file_warning_and_skip (fs pre post : List String)
    (n : Nat) (line : String)
    (h3 : (splitComma line).length = 3) :
    (fs.contains (pyStrip ((splitComma line).getD 1 "")) = false →
      checkLine fs n line = (none,
        ["Warning: Read1 file not found for " ++
          pyStrip ((splitComma line).getD 0 "") ++ ": " ++
          pyStrip ((splitComma line).getD 1 "")]))
    ∧ (fs.contains (pyStrip ((splitComma line).getD 1 "")) = true →
       fs.contains (pyStrip ((splitComma line).getD 2 "")) = false →
      checkLine fs n line = (none,
        ["Warning: Read2 file not found for " ++
          pyStrip ((splitComma line).getD 0 "") ++ ": " ++
          pyStrip ((splitComma line).getD 2 "")]))
    ∧ ((fs.contains (pyStrip ((splitComma line).getD 1 "")) = false ∨
        fs.contains (pyStrip ((splitComma line).getD 2 "")) = false) →
      read_samples fs (pre ++ line :: post) = read_samples fs (pre ++ post)) := by
  refine ⟨?_, ?_, ?_⟩
  · intro h1
    unfold checkLine
    dsimp only
    rw [if_neg (by simp [h3]), if_pos (by simpa using h1)]
  · intro h1 h2
    unfold checkLine
    dsimp only
    rw [if_neg (by simp [h3]), if_neg (by simpa using h1), if_pos (by simpa using h2)]
  · intro hmiss
    have hnone : accept fs line = none := by
      unfold accept checkLine
      dsimp only
      rw [if_neg (by simp [h3])]
      rcases hmiss with h1 | h2
      · rw [if_pos (by simpa using h1)]
      · by_cases h1 : fs.contains (pyStrip ((splitComma line).getD 1 "")) = true
        · rw [if_neg (by simpa using h1), if_pos (by simpa using h2)]
        · rw [if_pos (by simpa using h1)]
    rw [read_samples_eq_filterMap, read_samples_eq_filterMap,
      List.filterMap_append, List.filterMap_append, List.filterMap_cons, hnone]

/-- Witness for C4 amended: read1 missing on `s,a,b` with only `b` on disk. -/
theorem missing_read_file_warning_and_skip_witness :
    checkLine ["b"] 1 "s,a,b" = (none,
      ["Warning: Read1 file not found for " ++
        pyStrip ((splitComma "s,a,b").getD 0 "") ++ ": " ++
        pyStrip ((splitComma "s,a,b").getD 1 "")])
    ∧ read_samples ["b"] ([] ++ "s,a,b" :: []) = read_samples ["b"] ([] ++ []) := by
  have := missing_read_file_warning_and_skip ["b"] [] [] 1 "s,a,b" (by decide)
  exact ⟨this.1 (by decide), this.2.2 (Or.inl (by decide))⟩

/-- C8 counterexample: `read_samples` performs no name validation — a line
    with an empty first field is accepted, and two identical lines yield
    two records with the same (empty) name. -/
theorem record_name_invariant_counterexample :
    read_samples ["a", "b"] [",a,b", " ,a,b"] =
      [⟨"", "a", "b"⟩, ⟨"", "a", "b"⟩]
    ∧ (∃ r ∈ read_samples ["a", "b"] [",a,b", " ,a,b"], r.name = "")
    ∧ ¬ ((read_samples ["a", "b"] [",a,b", " ,a,b"]).map
          SampleRecord.name).Nodup := by
  refine ⟨by decide, ⟨⟨"", "a", "b"⟩, by decide, rfl⟩, by decide⟩

/-- C8 amended: every record returned by `read_samples` is built from some
    manifest line with exactly 3 fields whose two read paths exist, its name
    being the trimmed first field of that line; no non-emptiness or
    uniqueness of names is enforced. -/
theorem read_samples_record_provenance (fs lines : List String) :
    ∀ r ∈ read_samples fs lines, ∃ l ∈ lines,
      (splitComma l).length = 3 ∧ r = recordOfLine l ∧
        fs.contains r.read1 = true ∧ fs.contains r.read2 = true := by
  intro r hr
  rw [read_samples_eq_filterMap] at hr
  rcases List.mem_filterMap.mp hr with ⟨l, hl, hacc⟩
  exact ⟨l, hl, accept_eq_some fs l r hacc⟩

/-- Witness for C8 amended at a concrete accepted record. -/
theorem read_samples_record_provenance_witness :
    ∃ l ∈ ["s1,a,b"], (splitComma l).length = 3 ∧
      (⟨"s1", "a", "b"⟩ : SampleRecord) = recordOfLine l ∧
        (["a", "b"] : List String).contains
            (SampleRecord.read1 ⟨"s1", "a", "b"⟩) = true ∧
        (["a", "b"] : List String).contains
            (SampleRecord.read2 ⟨"s1", "a", "b"⟩) = true :=
  read_samples_record_provenance ["a", "b"] ["s1,a,b"] ⟨"s1", "a", "b"⟩
    (by decide)

/-- C9 counterexample: the detail line for sample `s1` is the name padded on
    the right (left-aligned) to width 30 followed by a space and the status,
    which differs from a name padded on the left as the claim states. -/
theorem report_padding_counterexample :
    (generate_summary_lines "t" [⟨"s1", true⟩]).getLast? =
      some ("s1" ++ charRun ' ' 28 ++ " SUCCESS")
    ∧ "s1" ++ charRun ' ' 28 ++ " SUCCESS" ≠
        padLeftSpec "s1" 30 ++ " " ++ "SUCCESS" := by decide

/-- C9 amended: for every non-empty result sequence the report contains the
    title, the generation timestamp, and the three counts, and ends with one
    line per sample, the sample name left-aligned (padded on the right with
    spaces) to minimum width 30, then a space, then `SUCCESS` if the result
    succeeded and `FAILED` otherwise. -/
theorem summary_report_format (now : String) (results : List RunResult)
    (_hne : results ≠ []) :
    (generate_summary_lines now results).length = 10 + results.length
    ∧ "GetOrganelle Batch Assembly Summary" ∈ generate_summary_lines now results
    ∧ ("Generated: " ++ now) ∈ generate_summary_lines now results
    ∧ ("Total samples: " ++ toString results.length)
        ∈ generate_summary_lines now results
    ∧ ("Successful: " ++ toString (count_successful results))
        ∈ generate_summary_lines now results
    ∧ ("Failed: " ++ toString (count_failed results))
        ∈ generate_summary_lines now results
    ∧ (generate_summary_lines now results).drop 10 =
        results.map (fun r => r.sample_name ++
          charRun ' ' (30 - r.sample_name.length) ++ " " ++
          (if r.success then "SUCCESS" else "FAILED")) := by
  refine ⟨?_, ?_, ?_, ?_, ?_, ?_, rfl⟩ <;> simp [generate_summary_lines]
  omega

/-- Witness for C9 amended at a one-sample result list. -/
theorem summary_report_format_witness :
    (generate_summary_lines "t" [⟨"s1", true⟩]).length =
      10 + ([⟨"s1", true⟩] : List RunResult).length :=
  (summary_report_format "t" [⟨"s1", true⟩] (by decide)).1

/-- The names in the accumulated results match the attempted samples,
    in order. -/
theorem batchLoop_names (coe : Bool) (runner : SampleRecord → Bool) :
    ∀ samples : List SampleRecord,
      ((batchLoop coe runner samples).1).map (fun r => r.sample_name) =
        ((batchLoop coe runner samples).2).map (fun s => s.name)
  | [] => rfl
  | s :: rest => by
    show (if runner s || coe then _ else _ : List RunResult × List SampleRecord).1.map _ =
      (if runner s || coe then _ else _ : List RunResult × List SampleRecord).2.map _
    by_cases hok : (runner s || coe) = true <;>
      simp [hok, batchLoop_names coe runner rest]

/-- The attempted samples form a prefix of the sample list. -/
theorem batchLoop_attempted_initial (coe : Bool) (runner : SampleRecord → Bool) :
    ∀ samples : List SampleRecord,
      ∃ rest, samples = (batchLoop coe runner samples).2 ++ rest
  | [] => ⟨[], rfl⟩
  | s :: rest => by
    by_cases hok : (runner s || coe) = true
    · rcases batchLoop_attempted_initial coe runner rest with ⟨r, hr⟩
      exact ⟨r, by simp [batchLoop, hok]; exact hr⟩
    · exact ⟨rest, by simp [batchLoop, hok]⟩

/-- C10: a run that reaches the report step writes the report at the fixed
    path `output_dir/batch_assembly_summary.txt` in overwrite mode — the
    store afterwards holds exactly the new content at that path whatever it
    held before — with the per-sample lines being, in order, exactly one
    line per accumulated result, whose names are the attempted samples'
    names in attempt order, the attempted samples being a prefix of the
    manifest order. -/
theorem report_overwrite_and_order (store : FileStore)
    (fs manifest : List String) (coe : Bool) (output_dir now : String)
    (runner : SampleRecord → Bool)
    (hne : read_samples fs manifest ≠ []) :
    readStore (main_run store fs manifest coe output_dir now runner).2
        (summary_path output_dir) =
      some (generate_summary_lines now
        (batchLoop coe runner (read_samples fs manifest)).1)
    ∧ summary_path output_dir = output_dir ++ "/batch_assembly_summary.txt"
    ∧ (generate_summary_lines now
        (batchLoop coe runner (read_samples fs manifest)).1).drop 10 =
      ((batchLoop coe runner (read_samples fs manifest)).1).map sampleLine
    ∧ ((batchLoop coe runner (read_samples fs manifest)).1).map
        (fun r => r.sample_name) =
      ((batchLoop coe runner (read_samples fs manifest)).2).map
        (fun s => s.name)
    ∧ ∃ rest, read_samples fs manifest =
        (batchLoop coe runner (read_samples fs manifest)).2 ++ rest := by
  have hempty : (read_samples fs manifest).isEmpty = false := by
    cases hL : read_samples fs manifest with
    | nil => exact absurd hL hne
    | cons a l => rfl
  refine ⟨?_, rfl, rfl, batchLoop_names coe runner _,
    batchLoop_attempted_initial coe runner _⟩
  show readStore
    (if (read_samples fs manifest).isEmpty = true then _ else _ : MainOutcome × FileStore).2 _ = _
  rw [if_neg (by simp [hempty])]
  simp [generate_summary, writeStore, readStore]

/-- Witness for C10 on a one-sample manifest with an empty store. -/
theorem report_overwrite_and_order_witness :
    readStore (main_run [] ["a", "b"] ["s1,a,b"] false "out" "t"
        (fun _ => true)).2 (summary_path "out") =
      some (generate_summary_lines "t"
        (batchLoop false (fun _ => true)
          (read_samples ["a", "b"] ["s1,a,b"])).1) :=
  (report_overwrite_and_order [] ["a", "b"] ["s1,a,b"] false "out" "t"
    (fun _ => true) (by decide)).1

/-- Core of C1: with continue-on-error unset and the `k`-th sample the first
    to fail, the loop attempts exactly samples 1..k and accumulates their
    results in order. -/
theorem batchLoop_stops_at_first_failure (runner : SampleRecord → Bool) :
    ∀ (samples : List SampleRecord) (k : Nat), 1 ≤ k → k ≤ samples.length →
      runner (samples.getD (k - 1) ⟨"", "", ""⟩) = false →
      (∀ i, i < k - 1 → runner (samples.getD i ⟨"", "", ""⟩) = true) →
      batchLoop false runner samples =
        ((samples.take k).map (fun s => (⟨s.name, runner s⟩ : RunResult)),
         samples.take k)
  | [], k, hk1, hk2, _, _ => by simp at hk2; omega
  | s :: rest, 1, _, _, hfail, _ => by
    rw [List.getD_cons_zero] at hfail
    simp [batchLoop, hfail]
  | s :: rest, k + 2, _, hk2, hfail, hpre => by
    have hs : runner s = true := by
      have := hpre 0 (by omega)
      rwa [List.getD_cons_zero] at this
    have hrec := batchLoop_stops_at_first_failure runner rest (k + 1)
      (by omega)
      (by simp at hk2; omega)
      (by rwa [show k + 2 - 1 = (k + 1 - 1) + 1 by omega,
            List.getD_cons_succ] at hfail)
      (fun i hi => by
        have := hpre (i + 1) (by omega)
        rwa [List.getD_cons_succ] at this)
    show (if runner s || false then _ else _ : List RunResult × List SampleRecord) = _
    rw [hs]
    simp only [Bool.true_or, if_pos]
    rw [hrec, List.take_succ_cons, List.map_cons]
    simp [hs]

/-- `exit_code` is 1 as soon as one accumulated result failed. -/
theorem exit_code_eq_one_of_mem (results : List RunResult) (r : RunResult)
    (hr : r ∈ results) (hf : r.success = false) : exit_code results = 1 := by
  unfold exit_code count_failed count_successful
  have hlt : (results.filter (fun x => x.success)).length < results.length :=
    List.length_filter_lt_length_iff_exists.mpr ⟨r, hr, by simp [hf]⟩
  rw [if_neg (by omega)]

/-- C1: if continue-on-error is unset and the `k`-th valid sample (1-indexed)
    is the first to fail, `main` finishes with exit code 1, the accumulated
    results passed to the report are exactly the `RunResult`s of samples
    1..k in order, and only samples 1..k were attempted — samples k+1..N are
    never invoked. -/
theorem stop_on_first_failure (store : FileStore) (fs manifest : List String)
    (output_dir now : String) (runner : SampleRecord → Bool) (k : Nat)
    (hk1 : 1 ≤ k) (hk2 : k ≤ (read_samples fs manifest).length)
    (hfail : runner ((read_samples fs manifest).getD (k - 1) ⟨"", "", ""⟩) = false)
    (hpre : ∀ i, i < k - 1 →
      runner ((read_samples fs manifest).getD i ⟨"", "", ""⟩) = true) :
    (main_run store fs manifest false output_dir now runner).1 =
      .finished 1
        (((read_samples fs manifest).take k).map
          (fun s => (⟨s.name, runner s⟩ : RunResult)))
        ((read_samples fs manifest).take k)
        (summary_path output_dir)
        (generate_summary_lines now
          (((read_samples fs manifest).take k).map
            (fun s => (⟨s.name, runner s⟩ : RunResult)))) := by
  have hloop := batchLoop_stops_at_first_failure runner
    (read_samples fs manifest) k hk1 hk2 hfail hpre
  have hempty : (read_samples fs manifest).isEmpty = false := by
    cases hL : read_samples fs manifest with
    | nil => rw [hL] at hk2; simp at hk2; omega
    | cons a l => rfl
  have hlen : k - 1 < (read_samples fs manifest).length := by omega
  have hmem : (⟨((read_samples fs manifest).getD (k - 1) ⟨"", "", ""⟩).name,
      false⟩ : RunResult) ∈
      ((read_samples fs manifest).take k).map
        (fun s => (⟨s.name, runner s⟩ : RunResult)) := by
    have htk : k - 1 < ((read_samples fs manifest).take k).length := by
      rw [List.length_take]; omega
    have hgd : (read_samples fs manifest).getD (k - 1) ⟨"", "", ""⟩ =
        ((read_samples fs manifest).take k).get ⟨k - 1, htk⟩ := by
      rw [List.getD_eq_getElem?_getD, List.get_eq_getElem, List.getElem_take,
        List.getElem?_eq_getElem hlen]
      rfl
    have hm : ((read_samples fs manifest).take k).get ⟨k - 1, htk⟩ ∈
        (read_samples fs manifest).take k := List.get_mem _ _ _
    have := List.mem_map_of_mem
      (fun s => (⟨s.name, runner s⟩ : RunResult)) hm
    rw [← hgd] at this
    simp only [List.getD_eq_getElem?_getD] at hfail
    simpa [hfail] using this
  have hcode : exit_code
      (((read_samples fs manifest).take k).map
        (fun s => (⟨s.name, runner s⟩ : RunResult))) = 1 :=
    exit_code_eq_one_of_mem _ _ hmem rfl
  show (if (read_samples fs manifest).isEmpty = true then _
    else _ : MainOutcome × FileStore).1 = _
  rw [if_neg (by simp [hempty])]
  rw [hloop]
  show MainOutcome.finished (exit_code _) _ _ _ _ = _
  rw [hcode]

/-- Witness for C1: three valid samples, the second is the first failure. -/
theorem stop_on_first_failure_witness :
    (main_run [] ["a", "b"] ["s1,a,b", "s2,a,b", "s3,a,b"] false "out" "t"
        (fun s => s.name == "s1")).1 =
      .finished 1
        (((read_samples ["a", "b"] ["s1,a,b", "s2,a,b", "s3,a,b"]).take 2).map
          (fun s => (⟨s.name, s.name == "s1"⟩ : RunResult)))
        ((read_samples ["a", "b"] ["s1,a,b", "s2,a,b", "s3,a,b"]).take 2)
        (summary_path "out")
        (generate_summary_lines "t"
          (((read_samples ["a", "b"] ["s1,a,b", "s2,a,b", "s3,a,b"]).take 2).map
            (fun s => (⟨s.name, s.name == "s1"⟩ : RunResult)))) :=
  stop_on_first_failure [] ["a", "b"] ["s1,a,b", "s2,a,b", "s3,a,b"]
    "out" "t" (fun s => s.name == "s1") 2 (by decide) (by decide)
    (by decide)
    (fun i hi => by
      have : i = 0 := by omega
      subst this
      decide)

end BatchAssembly
